import Mathlib

/-!
# Managed instance transparent data encryption resource

A shallow embedding of
`internal/services/mssql/mssql_managed_instance_transparent_data_encryption_resource.go`.

The four resource functions (`Create`, `Update`, `Read`, `Delete`) are
translated statement by statement.  Every remote SDK call is a transition of an
arbitrary deterministic remote service `Remote σ` over a state `σ`; a run
records the sequence of calls it made, the final remote state, how it ended
(returned an error value, returned `nil`, or panicked on a nil dereference) and
what it handed to the host runtime (`SetID`, `MarkAsGone`, `Encode`).

The parsers and the `ID()` formatter that the resource imports from other
packages are parameters (`Deps`).
-/

namespace MsSql

/-! ## Strings: the parts of Go's `strings` and `fmt` the resource uses -/

/-- Go's `unicode.IsSpace`: the Latin-1 white space characters and the code
points with the Unicode White_Space property. -/
def isSpace (c : Char) : Bool :=
  let n := c.toNat
  n = 0x09 || n = 0x0A || n = 0x0B || n = 0x0C || n = 0x0D || n = 0x20 ||
  n = 0x85 || n = 0xA0 || n = 0x1680 || (0x2000 ≤ n && n ≤ 0x200A) ||
  n = 0x2028 || n = 0x2029 || n = 0x202F || n = 0x205F || n = 0x3000

/-- Go's `strings.TrimSpace`: all leading and trailing white space removed. -/
def TrimSpace (s : String) : String :=
  ⟨((s.data.dropWhile isSpace).reverse.dropWhile isSpace).reverse⟩

/-- Splitting a character list at every occurrence of a one-character
separator; the result always has at least one element. -/
def splitChars (sep : Char) : List Char → List (List Char)
  | [] => [[]]
  | c :: cs =>
    if c = sep then [] :: splitChars sep cs
    else
      match splitChars sep cs with
      | [] => [[c]]
      | h :: t => (c :: h) :: t

/-- Go's `strings.Split(s, sep)` for a separator of one character, as used in
`strings.Split(idURL.Host, ".")`. -/
def Split (s : String) (sep : Char) : List String :=
  (splitChars sep s.data).map String.mk

/-- Go's `fmt.Sprintf("%s_%s_%s", a, b, c)` on three strings. -/
def Sprintf3 (a b c : String) : String :=
  a ++ "_" ++ b ++ "_" ++ c

/-! ## Data model -/

/-- The resource's schema model. -/
structure MsSqlManagedInstanceTransparentDataEncryptionModel where
  ManagedInstanceId : String
  KeyVaultKeyId : String
  AutoRotationEnabled : Bool
  deriving DecidableEq, Repr

/-- The value `parse.ManagedInstanceID` returns. -/
structure ManagedInstanceId where
  SubscriptionId : String
  ResourceGroup : String
  Name : String
  deriving DecidableEq, Repr

/-- The value `mssqlParse.ManagedInstanceEncryptionProtectorID` returns. -/
structure ManagedInstanceEncryptionProtectorId where
  SubscriptionId : String
  ResourceGroup : String
  ManagedInstanceName : String
  Name : String
  deriving DecidableEq, Repr

/-- The constructor `mssqlParse.NewManagedInstanceEncryptionProtectorID`. -/
def NewManagedInstanceEncryptionProtectorID (subscriptionId resourceGroup managedInstanceName name : String) :
    ManagedInstanceEncryptionProtectorId :=
  ⟨subscriptionId, resourceGroup, managedInstanceName, name⟩

/-- The value `keyVaultParser.ParseNestedItemID` returns. -/
structure NestedItemId where
  KeyVaultBaseUrl : String
  NestedItemType : String
  Name : String
  Version : String
  deriving DecidableEq, Repr

/-- The field of `url.URL` the resource reads. -/
structure URL where
  Host : String
  deriving DecidableEq, Repr

/-- The SDK's `sql.ServerKeyType` is a string type. -/
abbrev ServerKeyType := String

def ServerKeyTypeServiceManaged : ServerKeyType := "ServiceManaged"

def ServerKeyTypeAzureKeyVault : ServerKeyType := "AzureKeyVault"

/-- The SDK's `sql.ManagedInstanceKeyProperties`; pointer fields are options. -/
structure ManagedInstanceKeyProperties where
  ServerKeyType : ServerKeyType
  URI : Option String
  AutoRotationEnabled : Option Bool
  deriving DecidableEq, Repr

/-- The SDK's `sql.ManagedInstanceKey`. -/
structure ManagedInstanceKey where
  ManagedInstanceKeyProperties : Option ManagedInstanceKeyProperties
  deriving DecidableEq, Repr

/-- The SDK's `sql.ManagedInstanceEncryptionProtectorProperties`. -/
structure ManagedInstanceEncryptionProtectorProperties where
  ServerKeyName : Option String
  ServerKeyType : ServerKeyType
  URI : Option String
  AutoRotationEnabled : Option Bool
  deriving DecidableEq, Repr

/-- The SDK's `sql.ManagedInstanceEncryptionProtector`, used both as request
parameters and as the response of `Get`.  `Response` is the HTTP status code of
the embedded `autorest.Response` (`none` when there is no HTTP response). -/
structure ManagedInstanceEncryptionProtector where
  Response : Option Nat
  ManagedInstanceEncryptionProtectorProperties : Option ManagedInstanceEncryptionProtectorProperties
  ID : Option String
  deriving DecidableEq, Repr

/-- The helper `utils.ResponseWasNotFound`: an HTTP response is present and its
status code is 404. -/
def ResponseWasNotFound (resp : Option Nat) : Bool :=
  match resp with
  | some statusCode => statusCode == 404
  | none => false

/-! ## Errors -/

/-- An argument of a `fmt.Errorf` call. -/
inductive FmtArg where
  | str (s : String)
  | err (e : String)
  | managedInstanceId (id : ManagedInstanceId)
  | protectorId (id : ManagedInstanceEncryptionProtectorId)
  deriving DecidableEq, Repr

/-- The error values the resource functions return: an error of a callee
returned unchanged (`return err`), or `fmt.Errorf(format, args...)`. -/
inductive Error where
  | passthrough (e : String)
  | errorf (format : String) (args : List FmtArg)
  deriving DecidableEq, Repr

/-! ## Imported functions, the remote service and the host runtime -/

/-- The functions the resource imports from packages that are not part of this
file: the resource-ID parsers, `url.ParseRequestURI`, and the `ID()` method of
the encryption protector ID.  Errors are their messages.  The one fact assumed
of them is that `ParseNestedItemID` rejects the empty string (it starts with
`url.ParseRequestURI`, which fails on an empty URL). -/
structure Deps where
  ManagedInstanceID : String → Except String ManagedInstanceId
  ManagedInstanceEncryptionProtectorID : String → Except String ManagedInstanceEncryptionProtectorId
  ParseNestedItemID : String → Except String NestedItemId
  ParseRequestURI : String → Except String URL
  ProtectorIDString : ManagedInstanceEncryptionProtectorId → String
  ParseNestedItemID_empty : ∀ id, ParseNestedItemID "" ≠ .ok id

/-- A remote call made through one of the two SDK clients. -/
inductive Call where
  | keysCreateOrUpdate (resourceGroup managedInstanceName keyName : String) (parameters : ManagedInstanceKey)
  | keysWaitForCompletionRef
  | protectorCreateOrUpdate (resourceGroup managedInstanceName : String)
      (parameters : ManagedInstanceEncryptionProtector)
  | protectorWaitForCompletionRef
  | protectorGet (resourceGroup managedInstanceName : String)
  deriving DecidableEq, Repr

/-- The calls that change the remote object (the two `CreateOrUpdate`s). -/
def Call.isMutating : Call → Bool
  | .keysCreateOrUpdate _ _ _ _ => true
  | .protectorCreateOrUpdate _ _ _ => true
  | _ => false

/-- The calls made on `ManagedInstanceKeysClient`. -/
def Call.onKeysClient : Call → Bool
  | .keysCreateOrUpdate _ _ _ _ => true
  | .keysWaitForCompletionRef => true
  | _ => false

/-- An arbitrary deterministic remote service over a state `σ`: every SDK call
is a transition that yields the call's error (`none` for `nil`) and, for `Get`,
the response value. -/
structure Remote (σ : Type) where
  keysCreateOrUpdate : σ → String → String → String → ManagedInstanceKey → Option String × σ
  keysWaitForCompletionRef : σ → Option String × σ
  protectorCreateOrUpdate : σ → String → String → ManagedInstanceEncryptionProtector → Option String × σ
  protectorWaitForCompletionRef : σ → Option String × σ
  protectorGet : σ → String → String → (ManagedInstanceEncryptionProtector × Option String) × σ

/-- What a resource function reads from `sdk.ResourceMetaData`: the stored
resource ID, the result of `Decode`, and the results `MarkAsGone` and `Encode`
give back. -/
structure ResourceMetaData where
  ResourceDataId : String
  Decode : Except String MsSqlManagedInstanceTransparentDataEncryptionModel
  MarkAsGone : ManagedInstanceEncryptionProtectorId → Option String
  Encode : MsSqlManagedInstanceTransparentDataEncryptionModel → Option String

/-- How a resource function ends: it returns an error value (`none` for `nil`),
or it panics. -/
inductive Outcome where
  | returned (err : Option Error)
  | panicked
  deriving DecidableEq, Repr

/-- The observable run of a resource function. -/
structure Run (σ : Type) where
  calls : List Call
  remote : σ
  outcome : Outcome
  SetID : Option ManagedInstanceEncryptionProtectorId
  MarkedGone : Option ManagedInstanceEncryptionProtectorId
  Encoded : Option MsSqlManagedInstanceTransparentDataEncryptionModel

/-- A run that ends without having touched the host runtime's state. -/
def Run.halt {σ : Type} (calls : List Call) (remote : σ) (outcome : Outcome) : Run σ :=
  ⟨calls, remote, outcome, none, none, none⟩

/-- The type `sdk.ResourceFunc`: a timeout in nanoseconds and the function. -/
structure ResourceFunc where
  Timeout : Nat
  Func : {σ : Type} → Deps → Remote σ → ResourceMetaData → σ → Run σ

/-- Go's `time.Minute` in nanoseconds. -/
def Minute : Nat := 60 * 1000000000

/-- Go's `time.Hour` in nanoseconds. -/
def Hour : Nat := 60 * Minute

/-! ## The resource functions -/

/-- The method `Create`, lines 73-173. -/
def Create : ResourceFunc where
  Timeout := 24 * Hour
  Func := fun {σ} d client metadata s0 =>
    match metadata.Decode with
    | .error err => Run.halt [] s0 (.returned (some (.errorf "decoding: %+v" [.err err])))
    | .ok model =>
    match d.ManagedInstanceID model.ManagedInstanceId with
    | .error err => Run.halt [] s0 (.returned (some (.passthrough err)))
    | .ok managedInstanceId =>
    let id := NewManagedInstanceEncryptionProtectorID managedInstanceId.SubscriptionId
      managedInstanceId.ResourceGroup managedInstanceId.Name "current"
    let keyVaultKeyId := TrimSpace model.KeyVaultKeyId
    -- lines 92-134: the key name, the key type and the key, or an early exit
    let prepared : Except Outcome (String × ServerKeyType × ManagedInstanceKey) :=
      if keyVaultKeyId ≠ "" then
        let managedInstanceKeyProperties : ManagedInstanceKeyProperties :=
          { ServerKeyType := ServerKeyTypeAzureKeyVault
            URI := some keyVaultKeyId
            AutoRotationEnabled := some model.AutoRotationEnabled }
        match d.ParseNestedItemID keyVaultKeyId with
        | .error err =>
          .error (.returned (some (.errorf "Unable to parse key: %q: %+v" [.str keyVaultKeyId, .err err])))
        | .ok keyId =>
          if keyId.NestedItemType = "keys" then
            let keyName := keyId.Name
            let keyVersion := keyId.Version
            match d.ParseRequestURI keyId.KeyVaultBaseUrl with
            | .error _ =>
              .error (.returned (some
                (.errorf "Unable to parse key vault hostname: %s" [.str keyId.KeyVaultBaseUrl])))
            | .ok idURL =>
              let hostParts := Split idURL.Host '.'
              -- hostParts[0]: an index out of range panics
              match hostParts with
              | [] => .error .panicked
              | vaultName :: _ =>
                .ok (Sprintf3 vaultName keyName keyVersion, ServerKeyTypeAzureKeyVault,
                  ⟨some managedInstanceKeyProperties⟩)
          else
            .error (.returned (some
              (.errorf "Key vault key id must be a reference to a key, but got: %s"
                [.str keyId.NestedItemType])))
      else .ok ("", ServerKeyTypeServiceManaged, ⟨none⟩)
    match prepared with
    | .error o => Run.halt [] s0 o
    | .ok (managedInstanceKeyName, managedInstanceKeyType, managedInstanceKey) =>
    let parameters : ManagedInstanceEncryptionProtector :=
      { Response := none
        ManagedInstanceEncryptionProtectorProperties := some
          { ServerKeyName := some managedInstanceKeyName
            ServerKeyType := managedInstanceKeyType
            URI := none
            AutoRotationEnabled := some model.AutoRotationEnabled }
        ID := none }
    -- lines 144-154: create the key on the server, when there is one
    let keyStage : Except (Run σ) (List Call × σ) :=
      match managedInstanceKey.ManagedInstanceKeyProperties with
      | some _ =>
        let c1 := Call.keysCreateOrUpdate managedInstanceId.ResourceGroup managedInstanceId.Name
          managedInstanceKeyName managedInstanceKey
        match client.keysCreateOrUpdate s0 managedInstanceId.ResourceGroup managedInstanceId.Name
            managedInstanceKeyName managedInstanceKey with
        | (some err, s1) =>
          .error (Run.halt [c1] s1 (.returned (some
            (.errorf "creating/updating managed instance key for %s: %+v"
              [.managedInstanceId managedInstanceId, .err err]))))
        | (none, s1) =>
          match client.keysWaitForCompletionRef s1 with
          | (some err, s2) =>
            .error (Run.halt [c1, .keysWaitForCompletionRef] s2 (.returned (some
              (.errorf "waiting on update of %s: %+v" [.managedInstanceId managedInstanceId, .err err]))))
          | (none, s2) => .ok ([c1, .keysWaitForCompletionRef], s2)
      | none => .ok ([], s0)
    match keyStage with
    | .error r => r
    | .ok (calls2, s2) =>
    let c3 := Call.protectorCreateOrUpdate managedInstanceId.ResourceGroup managedInstanceId.Name parameters
    match client.protectorCreateOrUpdate s2 managedInstanceId.ResourceGroup managedInstanceId.Name
        parameters with
    | (some err, s3) =>
      Run.halt (calls2 ++ [c3]) s3 (.returned (some (.errorf "creating %s: %+v" [.protectorId id, .err err])))
    | (none, s3) =>
    match client.protectorWaitForCompletionRef s3 with
    | (some err, s4) =>
      Run.halt (calls2 ++ [c3, .protectorWaitForCompletionRef]) s4
        (.returned (some (.errorf "waiting for creation of %s: %+v" [.protectorId id, .err err])))
    | (none, s4) =>
    -- lines 166-170: the error of Get is assigned and not looked at; resp.ID is dereferenced
    match client.protectorGet s4 managedInstanceId.ResourceGroup managedInstanceId.Name with
    | ((resp, _), s5) =>
      let calls5 := calls2 ++ [c3, .protectorWaitForCompletionRef,
        .protectorGet managedInstanceId.ResourceGroup managedInstanceId.Name]
      match resp.ID with
      | none => Run.halt calls5 s5 .panicked
      | some _ =>
        { calls := calls5, remote := s5, outcome := .returned none
          SetID := some id, MarkedGone := none, Encoded := none }

/-- The method `Update`, lines 175-275. -/
def Update : ResourceFunc where
  Timeout := 24 * Hour
  Func := fun {σ} d client metadata s0 =>
    match metadata.Decode with
    | .error err => Run.halt [] s0 (.returned (some (.errorf "decoding: %+v" [.err err])))
    | .ok model =>
    match d.ManagedInstanceID model.ManagedInstanceId with
    | .error err => Run.halt [] s0 (.returned (some (.passthrough err)))
    | .ok managedInstanceId =>
    let id := NewManagedInstanceEncryptionProtectorID managedInstanceId.SubscriptionId
      managedInstanceId.ResourceGroup managedInstanceId.Name "current"
    let keyVaultKeyId := TrimSpace model.KeyVaultKeyId
    -- lines 194-236: the key name, the key type and the key, or an early exit
    let prepared : Except Outcome (String × ServerKeyType × ManagedInstanceKey) :=
      if keyVaultKeyId ≠ "" then
        let managedInstanceKeyProperties : ManagedInstanceKeyProperties :=
          { ServerKeyType := ServerKeyTypeAzureKeyVault
            URI := some keyVaultKeyId
            AutoRotationEnabled := some model.AutoRotationEnabled }
        match d.ParseNestedItemID keyVaultKeyId with
        | .error err =>
          .error (.returned (some (.errorf "Unable to parse key: %q: %+v" [.str keyVaultKeyId, .err err])))
        | .ok keyId =>
          if keyId.NestedItemType = "keys" then
            let keyName := keyId.Name
            let keyVersion := keyId.Version
            match d.ParseRequestURI keyId.KeyVaultBaseUrl with
            | .error _ =>
              .error (.returned (some
                (.errorf "Unable to parse key vault hostname: %s" [.str keyId.KeyVaultBaseUrl])))
            | .ok idURL =>
              let hostParts := Split idURL.Host '.'
              -- hostParts[0]: an index out of range panics
              match hostParts with
              | [] => .error .panicked
              | vaultName :: _ =>
                .ok (Sprintf3 vaultName keyName keyVersion, ServerKeyTypeAzureKeyVault,
                  ⟨some managedInstanceKeyProperties⟩)
          else
            .error (.returned (some
              (.errorf "Key vault key id must be a reference to a key, but got: %s"
                [.str keyId.NestedItemType])))
      else .ok ("", ServerKeyTypeServiceManaged, ⟨none⟩)
    match prepared with
    | .error o => Run.halt [] s0 o
    | .ok (managedInstanceKeyName, managedInstanceKeyType, managedInstanceKey) =>
    let parameters : ManagedInstanceEncryptionProtector :=
      { Response := none
        ManagedInstanceEncryptionProtectorProperties := some
          { ServerKeyName := some managedInstanceKeyName
            ServerKeyType := managedInstanceKeyType
            URI := none
            AutoRotationEnabled := some model.AutoRotationEnabled }
        ID := none }
    -- lines 246-256: create the key on the server, when there is one
    let keyStage : Except (Run σ) (List Call × σ) :=
      match managedInstanceKey.ManagedInstanceKeyProperties with
      | some _ =>
        let c1 := Call.keysCreateOrUpdate managedInstanceId.ResourceGroup managedInstanceId.Name
          managedInstanceKeyName managedInstanceKey
        match client.keysCreateOrUpdate s0 managedInstanceId.ResourceGroup managedInstanceId.Name
            managedInstanceKeyName managedInstanceKey with
        | (some err, s1) =>
          .error (Run.halt [c1] s1 (.returned (some
            (.errorf "creating/updating managed instance key for %s: %+v"
              [.managedInstanceId managedInstanceId, .err err]))))
        | (none, s1) =>
          match client.keysWaitForCompletionRef s1 with
          | (some err, s2) =>
            .error (Run.halt [c1, .keysWaitForCompletionRef] s2 (.returned (some
              (.errorf "waiting on update of %s: %+v" [.managedInstanceId managedInstanceId, .err err]))))
          | (none, s2) => .ok ([c1, .keysWaitForCompletionRef], s2)
      | none => .ok ([], s0)
    match keyStage with
    | .error r => r
    | .ok (calls2, s2) =>
    let c3 := Call.protectorCreateOrUpdate managedInstanceId.ResourceGroup managedInstanceId.Name parameters
    match client.protectorCreateOrUpdate s2 managedInstanceId.ResourceGroup managedInstanceId.Name
        parameters with
    | (some err, s3) =>
      Run.halt (calls2 ++ [c3]) s3 (.returned (some (.errorf "creating %s: %+v" [.protectorId id, .err err])))
    | (none, s3) =>
    match client.protectorWaitForCompletionRef s3 with
    | (some err, s4) =>
      Run.halt (calls2 ++ [c3, .protectorWaitForCompletionRef]) s4
        (.returned (some (.errorf "waiting for creation of %s: %+v" [.protectorId id, .err err])))
    | (none, s4) =>
    -- lines 268-272: the error of Get is assigned and not looked at; resp.ID is dereferenced
    match client.protectorGet s4 managedInstanceId.ResourceGroup managedInstanceId.Name with
    | ((resp, _), s5) =>
      let calls5 := calls2 ++ [c3, .protectorWaitForCompletionRef,
        .protectorGet managedInstanceId.ResourceGroup managedInstanceId.Name]
      match resp.ID with
      | none => Run.halt calls5 s5 .panicked
      | some _ =>
        { calls := calls5, remote := s5, outcome := .returned none
          SetID := some id, MarkedGone := none, Encoded := none }

/-- The method `Read`, lines 277-327.  The two logging statements are left out,
save for the dereference of `props.URI` the second one makes. -/
def Read : ResourceFunc where
  Timeout := 5 * Minute
  Func := fun d client metadata s0 =>
    match d.ManagedInstanceEncryptionProtectorID metadata.ResourceDataId with
    | .error err => Run.halt [] s0 (.returned (some (.passthrough err)))
    | .ok id =>
    match metadata.Decode with
    | .error err => Run.halt [] s0 (.returned (some (.passthrough err)))
    | .ok _ =>
    match client.protectorGet s0 id.ResourceGroup id.ManagedInstanceName with
    | ((existing, some err), s1) =>
      if ResponseWasNotFound existing.Response then
        { calls := [.protectorGet id.ResourceGroup id.ManagedInstanceName], remote := s1
          outcome := .returned ((metadata.MarkAsGone id).map Error.passthrough)
          SetID := none, MarkedGone := some id, Encoded := none }
      else
        Run.halt [.protectorGet id.ResourceGroup id.ManagedInstanceName] s1
          (.returned (some (.errorf "retrieving %s: %v" [.protectorId id, .err err])))
    | ((existing, none), s1) =>
      -- lines 302-317: the two values for the state, or a panic on a nil URI
      let values : Option (String × Bool) :=
        match existing.ManagedInstanceEncryptionProtectorProperties with
        | some props =>
          if props.ServerKeyType = ServerKeyTypeAzureKeyVault then
            match props.URI with
            | none => none
            | some uri =>
              match props.AutoRotationEnabled with
              | some b => some (uri, b)
              | none => some (uri, false)
          else some ("", false)
        | none => some ("", false)
      match values with
      | none => Run.halt [.protectorGet id.ResourceGroup id.ManagedInstanceName] s1 .panicked
      | some (keyVaultKeyId, autoRotationEnabled) =>
        let model : MsSqlManagedInstanceTransparentDataEncryptionModel :=
          { ManagedInstanceId := d.ProtectorIDString id
            KeyVaultKeyId := keyVaultKeyId
            AutoRotationEnabled := autoRotationEnabled }
        { calls := [.protectorGet id.ResourceGroup id.ManagedInstanceName], remote := s1
          outcome := .returned ((metadata.Encode model).map Error.passthrough)
          SetID := none, MarkedGone := none, Encoded := some model }

/-- The method `Delete`, lines 329-365. -/
def Delete : ResourceFunc where
  Timeout := 24 * Hour
  Func := fun d client metadata s0 =>
    match d.ManagedInstanceEncryptionProtectorID metadata.ResourceDataId with
    | .error err => Run.halt [] s0 (.returned (some (.passthrough err)))
    | .ok id =>
      let serverKeyName := ""
      let encryptionProtector : ManagedInstanceEncryptionProtector :=
        { Response := none
          ManagedInstanceEncryptionProtectorProperties := some
            { ServerKeyName := some serverKeyName
              ServerKeyType := ServerKeyTypeServiceManaged
              URI := none
              AutoRotationEnabled := none }
          ID := none }
      let c1 := Call.protectorCreateOrUpdate id.ResourceGroup id.ManagedInstanceName encryptionProtector
      match client.protectorCreateOrUpdate s0 id.ResourceGroup id.ManagedInstanceName encryptionProtector with
      | (some err, s1) =>
        Run.halt [c1] s1 (.returned (some (.errorf "updating %s: %+v" [.protectorId id, .err err])))
      | (none, s1) =>
        match client.protectorWaitForCompletionRef s1 with
        | (some err, s2) =>
          Run.halt [c1, .protectorWaitForCompletionRef] s2
            (.returned (some (.errorf "waiting on update future for %s: %+v" [.protectorId id, .err err])))
        | (none, s2) =>
          Run.halt [c1, .protectorWaitForCompletionRef] s2 (.returned none)

/-- The vault name in the words of the specification: the part of the host
before its first `.`, the whole host when it contains none. -/
def hostBeforeFirstDot (host : String) : String :=
  ⟨host.data.takeWhile (fun c => c != '.')⟩

/-! ## A concrete setting for evaluating the resource functions -/

/-- A parser for managed instance IDs in the canonical Azure layout
`/subscriptions/S/resourceGroups/G/providers/Microsoft.Sql/managedInstances/N`. -/
def canonicalManagedInstanceID (input : String) : Except String ManagedInstanceId :=
  match Split input '/' with
  | ["", "subscriptions", s, "resourceGroups", g, "providers", "Microsoft.Sql", "managedInstances", n] =>
    if s = "" || g = "" || n = "" then .error "ID contained an empty segment"
    else .ok ⟨s, g, n⟩
  | _ => .error "ID was not a managed instance ID"

/-- A parser for encryption protector IDs in the canonical Azure layout: a
managed instance ID followed by `/encryptionProtector/NAME`. -/
def canonicalManagedInstanceEncryptionProtectorID (input : String) :
    Except String ManagedInstanceEncryptionProtectorId :=
  match Split input '/' with
  | ["", "subscriptions", s, "resourceGroups", g, "providers", "Microsoft.Sql", "managedInstances", n,
      "encryptionProtector", name] =>
    if s = "" || g = "" || n = "" || name = "" then .error "ID contained an empty segment"
    else .ok ⟨s, g, n, name⟩
  | _ => .error "ID was not an encryption protector ID"

/-- A parser for Key Vault nested item IDs `https://HOST/TYPE/NAME[/VERSION]`. -/
def canonicalParseNestedItemID (input : String) : Except String NestedItemId :=
  match Split input '/' with
  | ["https:", "", host, itemType, name] =>
    if host = "" then .error "no host in the nested item ID"
    else .ok ⟨"https://" ++ host ++ "/", itemType, name, ""⟩
  | ["https:", "", host, itemType, name, version] =>
    if host = "" then .error "no host in the nested item ID"
    else .ok ⟨"https://" ++ host ++ "/", itemType, name, version⟩
  | _ => .error "expected a nested item ID of 2 or 3 path segments"

/-- A parser for request URIs `https://HOST/...` that gives the host. -/
def canonicalParseRequestURI (input : String) : Except String URL :=
  match Split input '/' with
  | "https:" :: "" :: host :: _ => if host = "" then .error "no host" else .ok ⟨host⟩
  | _ => .error "invalid URI for request"

/-- The canonical Azure layout of an encryption protector ID. -/
def canonicalProtectorIDString (id : ManagedInstanceEncryptionProtectorId) : String :=
  "/subscriptions/" ++ id.SubscriptionId ++ "/resourceGroups/" ++ id.ResourceGroup ++
    "/providers/Microsoft.Sql/managedInstances/" ++ id.ManagedInstanceName ++
    "/encryptionProtector/" ++ id.Name

/-- The imported functions on IDs in canonical layout. -/
def azureDeps : Deps where
  ManagedInstanceID := canonicalManagedInstanceID
  ManagedInstanceEncryptionProtectorID := canonicalManagedInstanceEncryptionProtectorID
  ParseNestedItemID := canonicalParseNestedItemID
  ParseRequestURI := canonicalParseRequestURI
  ProtectorIDString := canonicalProtectorIDString
  ParseNestedItemID_empty := fun _ h => Except.noConfusion h

/-- The state of the sample remote services: the protector properties last
submitted, if any. -/
abbrev Stored := Option ManagedInstanceEncryptionProtectorProperties

/-- A remote service on which every call succeeds: `CreateOrUpdate` stores the
protector it is given and `Get` answers 200 with the stored protector and
the ID in `answerID`. -/
def okRemote (answerID : Option String) : Remote Stored where
  keysCreateOrUpdate := fun s _ _ _ _ => (none, s)
  keysWaitForCompletionRef := fun s => (none, s)
  protectorCreateOrUpdate := fun _ _ _ parameters =>
    (none, parameters.ManagedInstanceEncryptionProtectorProperties)
  protectorWaitForCompletionRef := fun s => (none, s)
  protectorGet := fun s _ _ => ((⟨some 200, s, answerID⟩, none), s)

/-- A remote service like `okRemote` on which `Get` fails: it answers with the
status code `status`, no properties, the ID in `answerID`, and an error. -/
def getFailsRemote (status : Nat) (answerID : Option String) : Remote Stored where
  keysCreateOrUpdate := fun s _ _ _ _ => (none, s)
  keysWaitForCompletionRef := fun s => (none, s)
  protectorCreateOrUpdate := fun _ _ _ parameters =>
    (none, parameters.ManagedInstanceEncryptionProtectorProperties)
  protectorWaitForCompletionRef := fun s => (none, s)
  protectorGet := fun s _ _ => ((⟨some status, none, answerID⟩, some "Get failed"), s)

/-- A remote service on which `Get` gives the response `resp` and the error
`err`, and every other call succeeds. -/
def getAnswersRemote (resp : ManagedInstanceEncryptionProtector) (err : Option String) : Remote Stored where
  keysCreateOrUpdate := fun s _ _ _ _ => (none, s)
  keysWaitForCompletionRef := fun s => (none, s)
  protectorCreateOrUpdate := fun _ _ _ parameters =>
    (none, parameters.ManagedInstanceEncryptionProtectorProperties)
  protectorWaitForCompletionRef := fun s => (none, s)
  protectorGet := fun s _ _ => ((resp, err), s)

/-- A host runtime holding the resource ID `resourceId` and the decoded model
`model`, on which `MarkAsGone` and `Encode` succeed. -/
def hostWith (resourceId : String) (model : MsSqlManagedInstanceTransparentDataEncryptionModel) :
    ResourceMetaData where
  ResourceDataId := resourceId
  Decode := .ok model
  MarkAsGone := fun _ => none
  Encode := fun _ => none

/-- A managed instance ID in canonical layout. -/
def sampleManagedInstanceId : String :=
  "/subscriptions/sub/resourceGroups/rg/providers/Microsoft.Sql/managedInstances/mi"

/-- The encryption protector ID of `sampleManagedInstanceId`. -/
def sampleProtectorId : String :=
  "/subscriptions/sub/resourceGroups/rg/providers/Microsoft.Sql/managedInstances/mi/encryptionProtector/current"

/-- A versioned Key Vault key ID. -/
def sampleKeyId : String := "https://acc.vault.azure.net/keys/k1/v7"

/-- A Key Vault secret ID. -/
def sampleSecretId : String := "https://acc.vault.azure.net/secrets/s1/v7"

/-- A `Get` response with key type `AzureKeyVault`, a URI and no rotation flag. -/
def sampleKeyVaultResponse : ManagedInstanceEncryptionProtector :=
  ⟨some 200, some ⟨some "acc_k1_v7", ServerKeyTypeAzureKeyVault, some sampleKeyId, none⟩,
    some sampleProtectorId⟩

/-- A `Get` response with key type `AzureKeyVault` and no URI. -/
def sampleNoUriResponse : ManagedInstanceEncryptionProtector :=
  ⟨some 200, some ⟨some "acc_k1_v7", ServerKeyTypeAzureKeyVault, none, some true⟩,
    some sampleProtectorId⟩

/-! ## Theorems -/

/-- C1: on a resource ID that parses, the mutating calls of `Delete` are exactly
one `CreateOrUpdate` on the encryption protector client, addressed to the parsed
resource group and managed instance, with key type `ServiceManaged` and the
empty key name; no call goes to the keys client. -/
theorem Delete_resets_to_service_managed {σ : Type} (d : Deps) (client : Remote σ)
    (metadata : ResourceMetaData) (s0 : σ) (id : ManagedInstanceEncryptionProtectorId)
    (hid : d.ManagedInstanceEncryptionProtectorID metadata.ResourceDataId = .ok id) :
    ∃ parameters properties,
      (Delete.Func d client metadata s0).calls.filter Call.isMutating =
        [Call.protectorCreateOrUpdate id.ResourceGroup id.ManagedInstanceName parameters] ∧
      parameters.ManagedInstanceEncryptionProtectorProperties = some properties ∧
      properties.ServerKeyType = ServerKeyTypeServiceManaged ∧
      properties.ServerKeyName = some "" ∧
      ∀ c ∈ (Delete.Func d client metadata s0).calls, c.onKeysClient = false := by
  refine ⟨⟨none, some ⟨some "", ServerKeyTypeServiceManaged, none, none⟩, none⟩,
    ⟨some "", ServerKeyTypeServiceManaged, none, none⟩, ?_, rfl, rfl, rfl, ?_⟩
  · simp only [Delete, hid]
    split
    · simp [Run.halt, Call.isMutating]
    · split <;> simp [Run.halt, Call.isMutating]
  · simp only [Delete, hid]
    split
    · simp [Run.halt, Call.onKeysClient]
    · split <;> simp [Run.halt, Call.onKeysClient]

/-- C1 at a concrete input: deleting the sample protector on a remote service
where every call succeeds. -/
theorem Delete_resets_to_service_managed_witness :
    ∃ parameters properties,
      (Delete.Func azureDeps (okRemote none) (hostWith sampleProtectorId ⟨"", "", false⟩) none).calls.filter
          Call.isMutating =
        [Call.protectorCreateOrUpdate "rg" "mi" parameters] ∧
      parameters.ManagedInstanceEncryptionProtectorProperties = some properties ∧
      properties.ServerKeyType = ServerKeyTypeServiceManaged ∧
      properties.ServerKeyName = some "" ∧
      ∀ c ∈ (Delete.Func azureDeps (okRemote none) (hostWith sampleProtectorId ⟨"", "", false⟩) none).calls,
        c.onKeysClient = false :=
  Delete_resets_to_service_managed azureDeps (okRemote none) (hostWith sampleProtectorId ⟨"", "", false⟩)
    none ⟨"sub", "rg", "mi", "current"⟩ rfl

/-- A string of white space only (the empty string included) trims to the empty
string. -/
theorem TrimSpace_of_blank (s : String) (h : ∀ c ∈ s.data, isSpace c = true) : TrimSpace s = "" := by
  have h1 : s.data.dropWhile isSpace = [] := by
    rw [List.dropWhile_eq_nil_iff]
    exact h
  simp [TrimSpace, h1]

/-- The first element of a split is what precedes the first separator. -/
theorem splitChars_head (sep : Char) (cs : List Char) :
    ∃ t, splitChars sep cs = cs.takeWhile (fun c => c != sep) :: t := by
  induction cs with
  | nil => exact ⟨[], rfl⟩
  | cons c cs ih =>
    obtain ⟨t, ht⟩ := ih
    by_cases h : c = sep
    · exact ⟨splitChars sep cs, by simp [splitChars, h]⟩
    · exact ⟨t, by simp [splitChars, h, ht]⟩

/-- The first element of `strings.Split(host, ".")` is `hostBeforeFirstDot host`. -/
theorem Split_dot_head (host : String) : ∃ t, Split host '.' = hostBeforeFirstDot host :: t := by
  obtain ⟨t, ht⟩ := splitChars_head '.' host.data
  exact ⟨t.map String.mk, by simp [Split, hostBeforeFirstDot, ht]⟩

/-- A host without a `.` is its own `hostBeforeFirstDot`. -/
theorem hostBeforeFirstDot_of_no_dot (host : String) (h : '.' ∉ host.data) :
    hostBeforeFirstDot host = host := by
  have : host.data.takeWhile (fun c => c != '.') = host.data := by
    rw [List.takeWhile_eq_self_iff]
    intro c hc
    have : c ≠ '.' := fun e => h (e ▸ hc)
    simpa using this
  simp [hostBeforeFirstDot, this]

/-- C3: when the trimmed `key_vault_key_id` parses as a nested item of type
`keys` whose base URL parses as a request URI, every protector
`CreateOrUpdate` that `Create` makes carries the key name
`vault_key_version`, `vault` being the host up to its first `.`, and the key type
`AzureKeyVault`; and `Create` does make that call once the managed instance ID
parses and the key registration and its wait succeed. -/
theorem Create_server_key_name_format {σ : Type} (d : Deps) (client : Remote σ)
    (metadata : ResourceMetaData) (s0 : σ) (model : MsSqlManagedInstanceTransparentDataEncryptionModel)
    (keyId : NestedItemId) (idURL : URL)
    (hdec : metadata.Decode = .ok model)
    (hkey : d.ParseNestedItemID (TrimSpace model.KeyVaultKeyId) = .ok keyId)
    (htype : keyId.NestedItemType = "keys")
    (huri : d.ParseRequestURI keyId.KeyVaultBaseUrl = .ok idURL) :
    (∀ resourceGroup name parameters,
      Call.protectorCreateOrUpdate resourceGroup name parameters ∈ (Create.Func d client metadata s0).calls →
      ∃ properties, parameters.ManagedInstanceEncryptionProtectorProperties = some properties ∧
        properties.ServerKeyName =
          some (hostBeforeFirstDot idURL.Host ++ "_" ++ keyId.Name ++ "_" ++ keyId.Version) ∧
        properties.ServerKeyType = ServerKeyTypeAzureKeyVault) ∧
    (∀ managedInstanceId s1 s2, d.ManagedInstanceID model.ManagedInstanceId = .ok managedInstanceId →
      client.keysCreateOrUpdate s0 managedInstanceId.ResourceGroup managedInstanceId.Name
        (hostBeforeFirstDot idURL.Host ++ "_" ++ keyId.Name ++ "_" ++ keyId.Version)
        ⟨some ⟨ServerKeyTypeAzureKeyVault, some (TrimSpace model.KeyVaultKeyId),
          some model.AutoRotationEnabled⟩⟩ = (none, s1) →
      client.keysWaitForCompletionRef s1 = (none, s2) →
      ∃ parameters,
        Call.protectorCreateOrUpdate managedInstanceId.ResourceGroup managedInstanceId.Name parameters ∈
          (Create.Func d client metadata s0).calls) := by
  have hne : TrimSpace model.KeyVaultKeyId ≠ "" := fun h =>
    d.ParseNestedItemID_empty keyId (h ▸ hkey)
  obtain ⟨t, ht⟩ := Split_dot_head idURL.Host
  constructor
  · intro resourceGroup name parameters
    simp only [Create, hdec]
    split
    · simp [Run.halt]
    · simp only [hne, hkey, htype, huri, ht, ne_eq, not_false_eq_true, if_true, Sprintf3]
      generalize client.keysCreateOrUpdate _ _ _ _ _ = r1
      obtain ⟨_ | e1, s1⟩ := r1
      · simp only []
        generalize client.keysWaitForCompletionRef _ = r2
        obtain ⟨_ | e2, s2⟩ := r2
        · simp only []
          generalize client.protectorCreateOrUpdate _ _ _ _ = r3
          obtain ⟨_ | e3, s3⟩ := r3
          · simp only []
            generalize client.protectorWaitForCompletionRef _ = r4
            obtain ⟨_ | e4, s4⟩ := r4
            · simp only []
              split <;> simp [Run.halt] <;> rintro - - rfl <;> exact ⟨_, rfl, rfl, rfl⟩
            · simp [Run.halt]
              rintro - - rfl
              exact ⟨_, rfl, rfl, rfl⟩
          · simp [Run.halt]
            rintro - - rfl
            exact ⟨_, rfl, rfl, rfl⟩
        · simp [Run.halt]
      · simp [Run.halt]
  · intro managedInstanceId s1 s2 hmi h1 h2
    simp only [Create, hdec, hmi]
    simp only [hne, hkey, htype, huri, ht, ne_eq, not_false_eq_true, if_true, Sprintf3, h1, h2]
    repeat' split
    all_goals simp [Run.halt]

/-- C3 at a concrete input: a versioned key ID with white space around it, on a
remote service where every call succeeds. -/
theorem Create_server_key_name_format_witness :
    (∀ resourceGroup name parameters,
      Call.protectorCreateOrUpdate resourceGroup name parameters ∈
        (Create.Func azureDeps (okRemote (some sampleProtectorId))
          (hostWith "" ⟨sampleManagedInstanceId, " https://acc.vault.azure.net/keys/k1/v7\n", false⟩)
          none).calls →
      ∃ properties, parameters.ManagedInstanceEncryptionProtectorProperties = some properties ∧
        properties.ServerKeyName = some "acc_k1_v7" ∧
        properties.ServerKeyType = ServerKeyTypeAzureKeyVault) ∧
    (∃ parameters,
      Call.protectorCreateOrUpdate "rg" "mi" parameters ∈
        (Create.Func azureDeps (okRemote (some sampleProtectorId))
          (hostWith "" ⟨sampleManagedInstanceId, " https://acc.vault.azure.net/keys/k1/v7\n", false⟩)
          none).calls) :=
  have h := Create_server_key_name_format azureDeps (okRemote (some sampleProtectorId))
    (hostWith "" ⟨sampleManagedInstanceId, " https://acc.vault.azure.net/keys/k1/v7\n", false⟩) none
    ⟨sampleManagedInstanceId, " https://acc.vault.azure.net/keys/k1/v7\n", false⟩
    ⟨"https://acc.vault.azure.net/", "keys", "k1", "v7"⟩ ⟨"acc.vault.azure.net"⟩
    rfl rfl rfl rfl
  ⟨h.1, h.2 ⟨"sub", "rg", "mi"⟩ none none rfl rfl rfl⟩

/-- C4: with a valid managed instance ID and a `key_vault_key_id` that is empty
or white space only, `Create` makes no call on the keys client, and its first
and only mutating call is the protector `CreateOrUpdate` with key type
`ServiceManaged` and the empty key name. -/
theorem Create_blank_key_is_service_managed {σ : Type} (d : Deps) (client : Remote σ)
    (metadata : ResourceMetaData) (s0 : σ) (model : MsSqlManagedInstanceTransparentDataEncryptionModel)
    (managedInstanceId : ManagedInstanceId)
    (hdec : metadata.Decode = .ok model)
    (hmi : d.ManagedInstanceID model.ManagedInstanceId = .ok managedInstanceId)
    (hblank : ∀ c ∈ model.KeyVaultKeyId.data, isSpace c = true) :
    (∀ c ∈ (Create.Func d client metadata s0).calls, c.onKeysClient = false) ∧
    ∃ parameters properties rest,
      (Create.Func d client metadata s0).calls =
        Call.protectorCreateOrUpdate managedInstanceId.ResourceGroup managedInstanceId.Name parameters
          :: rest ∧
      (∀ c ∈ rest, c.isMutating = false) ∧
      parameters.ManagedInstanceEncryptionProtectorProperties = some properties ∧
      properties.ServerKeyType = ServerKeyTypeServiceManaged ∧
      properties.ServerKeyName = some "" := by
  have ht := TrimSpace_of_blank _ hblank
  constructor
  · simp only [Create, hdec, hmi, ht]
    simp only [ne_eq, not_true_eq_false, if_false]
    repeat' split
    all_goals simp [Run.halt, Call.onKeysClient]
  · have hcalls : ∃ rest, (Create.Func d client metadata s0).calls =
        Call.protectorCreateOrUpdate managedInstanceId.ResourceGroup managedInstanceId.Name
          ⟨none, some ⟨some "", ServerKeyTypeServiceManaged, none, some model.AutoRotationEnabled⟩, none⟩
          :: rest ∧ ∀ c ∈ rest, c.isMutating = false := by
      simp only [Create, hdec, hmi, ht]
      simp only [ne_eq, not_true_eq_false, if_false]
      repeat' split
      all_goals simp [Run.halt, Call.isMutating]
    obtain ⟨rest, h1, h2⟩ := hcalls
    exact ⟨_, _, rest, h1, h2, rfl, rfl, rfl⟩

/-- C4 at a concrete input: a `key_vault_key_id` of two blanks and a tab. -/
theorem Create_blank_key_is_service_managed_witness :
    (∀ c ∈ (Create.Func azureDeps (okRemote (some sampleProtectorId))
        (hostWith "" ⟨sampleManagedInstanceId, "  \t", false⟩) none).calls, c.onKeysClient = false) ∧
    ∃ parameters properties rest,
      (Create.Func azureDeps (okRemote (some sampleProtectorId))
        (hostWith "" ⟨sampleManagedInstanceId, "  \t", false⟩) none).calls =
        Call.protectorCreateOrUpdate "rg" "mi" parameters :: rest ∧
      (∀ c ∈ rest, c.isMutating = false) ∧
      parameters.ManagedInstanceEncryptionProtectorProperties = some properties ∧
      properties.ServerKeyType = ServerKeyTypeServiceManaged ∧
      properties.ServerKeyName = some "" :=
  Create_blank_key_is_service_managed azureDeps (okRemote (some sampleProtectorId))
    (hostWith "" ⟨sampleManagedInstanceId, "  \t", false⟩) none ⟨sampleManagedInstanceId, "  \t", false⟩
    ⟨"sub", "rg", "mi"⟩ rfl rfl (by decide)

/-- C5: when the trimmed `key_vault_key_id` is not empty and either does not
parse as a nested item ID or parses as one whose type is not `keys`, `Create`
returns an error, makes no remote call and does not set the resource ID. -/
theorem Create_rejects_non_key {σ : Type} (d : Deps) (client : Remote σ)
    (metadata : ResourceMetaData) (s0 : σ) (model : MsSqlManagedInstanceTransparentDataEncryptionModel)
    (hdec : metadata.Decode = .ok model)
    (hne : TrimSpace model.KeyVaultKeyId ≠ "")
    (hbad : (∃ e, d.ParseNestedItemID (TrimSpace model.KeyVaultKeyId) = .error e) ∨
      (∃ keyId, d.ParseNestedItemID (TrimSpace model.KeyVaultKeyId) = .ok keyId ∧
        keyId.NestedItemType ≠ "keys")) :
    (∃ e, (Create.Func d client metadata s0).outcome = .returned (some e)) ∧
    (Create.Func d client metadata s0).calls = [] ∧
    (Create.Func d client metadata s0).SetID = none := by
  simp only [Create, hdec]
  split
  · exact ⟨⟨_, rfl⟩, rfl, rfl⟩
  · rcases hbad with ⟨e, he⟩ | ⟨keyId, hk, ht⟩
    · simp only [he, hne, ne_eq, not_false_eq_true, if_true]
      exact ⟨⟨_, rfl⟩, rfl, rfl⟩
    · simp only [hk, hne, ht, ne_eq, not_false_eq_true, if_true, if_false]
      exact ⟨⟨_, rfl⟩, rfl, rfl⟩

/-- C5 at two concrete inputs: a Key Vault secret ID, and a string that is not a
nested item ID. -/
theorem Create_rejects_non_key_witness :
    ((∃ e, (Create.Func azureDeps (okRemote none)
        (hostWith "" ⟨sampleManagedInstanceId, sampleSecretId, false⟩) none).outcome = .returned (some e)) ∧
      (Create.Func azureDeps (okRemote none)
        (hostWith "" ⟨sampleManagedInstanceId, sampleSecretId, false⟩) none).calls = [] ∧
      (Create.Func azureDeps (okRemote none)
        (hostWith "" ⟨sampleManagedInstanceId, sampleSecretId, false⟩) none).SetID = none) ∧
    ((∃ e, (Create.Func azureDeps (okRemote none)
        (hostWith "" ⟨sampleManagedInstanceId, "not-an-id", false⟩) none).outcome = .returned (some e)) ∧
      (Create.Func azureDeps (okRemote none)
        (hostWith "" ⟨sampleManagedInstanceId, "not-an-id", false⟩) none).calls = [] ∧
      (Create.Func azureDeps (okRemote none)
        (hostWith "" ⟨sampleManagedInstanceId, "not-an-id", false⟩) none).SetID = none) :=
  ⟨Create_rejects_non_key azureDeps (okRemote none)
      (hostWith "" ⟨sampleManagedInstanceId, sampleSecretId, false⟩) none
      ⟨sampleManagedInstanceId, sampleSecretId, false⟩ rfl (by decide)
      (Or.inr ⟨⟨"https://acc.vault.azure.net/", "secrets", "s1", "v7"⟩, rfl, by decide⟩),
    Create_rejects_non_key azureDeps (okRemote none)
      (hostWith "" ⟨sampleManagedInstanceId, "not-an-id", false⟩) none
      ⟨sampleManagedInstanceId, "not-an-id", false⟩ rfl (by decide)
      (Or.inl ⟨"expected a nested item ID of 2 or 3 path segments", rfl⟩)⟩

/-- C10: with a valid managed instance ID and a non-blank `key_vault_key_id`
that passes parsing, the first call of `Create` is the `CreateOrUpdate` on the
keys client, with key type `AzureKeyVault`, the trimmed `key_vault_key_id` as URI
and the model's `auto_rotation_enabled`; and whenever `Create` calls the
protector `CreateOrUpdate`, its `ServerKeyName` is the key name given to the keys
client, the key call and its wait both succeeded, and the calls came in the
order key call, key wait, protector call. -/
theorem Create_registers_key_before_protector {σ : Type} (d : Deps) (client : Remote σ)
    (metadata : ResourceMetaData) (s0 : σ) (model : MsSqlManagedInstanceTransparentDataEncryptionModel)
    (managedInstanceId : ManagedInstanceId) (keyId : NestedItemId) (idURL : URL)
    (hdec : metadata.Decode = .ok model)
    (hmi : d.ManagedInstanceID model.ManagedInstanceId = .ok managedInstanceId)
    (hne : TrimSpace model.KeyVaultKeyId ≠ "")
    (hkey : d.ParseNestedItemID (TrimSpace model.KeyVaultKeyId) = .ok keyId)
    (htype : keyId.NestedItemType = "keys")
    (huri : d.ParseRequestURI keyId.KeyVaultBaseUrl = .ok idURL) :
    ∃ keyName rest,
      (Create.Func d client metadata s0).calls =
        Call.keysCreateOrUpdate managedInstanceId.ResourceGroup managedInstanceId.Name keyName
          ⟨some ⟨ServerKeyTypeAzureKeyVault, some (TrimSpace model.KeyVaultKeyId),
            some model.AutoRotationEnabled⟩⟩ :: rest ∧
      ∀ resourceGroup name parameters,
        Call.protectorCreateOrUpdate resourceGroup name parameters ∈ (Create.Func d client metadata s0).calls →
        (∃ properties, parameters.ManagedInstanceEncryptionProtectorProperties = some properties ∧
          properties.ServerKeyName = some keyName) ∧
        ∃ s1 s2 tail,
          client.keysCreateOrUpdate s0 managedInstanceId.ResourceGroup managedInstanceId.Name keyName
            ⟨some ⟨ServerKeyTypeAzureKeyVault, some (TrimSpace model.KeyVaultKeyId),
              some model.AutoRotationEnabled⟩⟩ = (none, s1) ∧
          client.keysWaitForCompletionRef s1 = (none, s2) ∧
          rest = Call.keysWaitForCompletionRef ::
            Call.protectorCreateOrUpdate resourceGroup name parameters :: tail := by
  obtain ⟨t, ht⟩ := Split_dot_head idURL.Host
  refine ⟨hostBeforeFirstDot idURL.Host ++ "_" ++ keyId.Name ++ "_" ++ keyId.Version, ?_⟩
  simp only [Create, hdec, hmi]
  simp only [hne, hkey, htype, huri, ht, ne_eq, not_false_eq_true, if_true, Sprintf3]
  rcases h1 : client.keysCreateOrUpdate s0 managedInstanceId.ResourceGroup managedInstanceId.Name
    (hostBeforeFirstDot idURL.Host ++ "_" ++ keyId.Name ++ "_" ++ keyId.Version)
    ⟨some ⟨ServerKeyTypeAzureKeyVault, some (TrimSpace model.KeyVaultKeyId),
      some model.AutoRotationEnabled⟩⟩ with ⟨_ | e1, s1⟩
  · simp only []
    rcases h2 : client.keysWaitForCompletionRef s1 with ⟨_ | e2, s2⟩
    · simp only []
      generalize client.protectorCreateOrUpdate _ _ _ _ = r3
      obtain ⟨_ | e3, s3⟩ := r3
      · simp only []
        generalize client.protectorWaitForCompletionRef _ = r4
        obtain ⟨_ | e4, s4⟩ := r4
        · simp only []
          split
          all_goals
            refine ⟨_, rfl, ?_⟩
            intro resourceGroup name parameters hmem
            simp [Run.halt] at hmem
            obtain ⟨rfl, rfl, rfl⟩ := hmem
            exact ⟨⟨_, rfl, rfl⟩, s1, s2, _, rfl, h2, rfl⟩
        · refine ⟨_, rfl, ?_⟩
          intro resourceGroup name parameters hmem
          simp [Run.halt] at hmem
          obtain ⟨rfl, rfl, rfl⟩ := hmem
          exact ⟨⟨_, rfl, rfl⟩, s1, s2, _, rfl, h2, rfl⟩
      · refine ⟨_, rfl, ?_⟩
        intro resourceGroup name parameters hmem
        simp [Run.halt] at hmem
        obtain ⟨rfl, rfl, rfl⟩ := hmem
        exact ⟨⟨_, rfl, rfl⟩, s1, s2, _, rfl, h2, rfl⟩
    · refine ⟨_, rfl, ?_⟩
      intro resourceGroup name parameters hmem
      simp [Run.halt] at hmem
  · refine ⟨_, rfl, ?_⟩
    intro resourceGroup name parameters hmem
    simp [Run.halt] at hmem

/-- C10 at a concrete input: a versioned key ID on a remote service where every
call succeeds. -/
theorem Create_registers_key_before_protector_witness :
    ∃ keyName rest,
      (Create.Func azureDeps (okRemote (some sampleProtectorId))
        (hostWith "" ⟨sampleManagedInstanceId, sampleKeyId, true⟩) none).calls =
        Call.keysCreateOrUpdate "rg" "mi" keyName
          ⟨some ⟨ServerKeyTypeAzureKeyVault, some sampleKeyId, some true⟩⟩ :: rest ∧
      ∀ resourceGroup name parameters,
        Call.protectorCreateOrUpdate resourceGroup name parameters ∈
          (Create.Func azureDeps (okRemote (some sampleProtectorId))
            (hostWith "" ⟨sampleManagedInstanceId, sampleKeyId, true⟩) none).calls →
        (∃ properties, parameters.ManagedInstanceEncryptionProtectorProperties = some properties ∧
          properties.ServerKeyName = some keyName) ∧
        ∃ s1 s2 tail,
          (okRemote (some sampleProtectorId)).keysCreateOrUpdate none "rg" "mi" keyName
            ⟨some ⟨ServerKeyTypeAzureKeyVault, some sampleKeyId, some true⟩⟩ = (none, s1) ∧
          (okRemote (some sampleProtectorId)).keysWaitForCompletionRef s1 = (none, s2) ∧
          rest = Call.keysWaitForCompletionRef ::
            Call.protectorCreateOrUpdate resourceGroup name parameters :: tail :=
  Create_registers_key_before_protector azureDeps (okRemote (some sampleProtectorId))
    (hostWith "" ⟨sampleManagedInstanceId, sampleKeyId, true⟩) none
    ⟨sampleManagedInstanceId, sampleKeyId, true⟩ ⟨"sub", "rg", "mi"⟩
    ⟨"https://acc.vault.azure.net/", "keys", "k1", "v7"⟩ ⟨"acc.vault.azure.net"⟩
    rfl rfl (by decide) rfl rfl rfl

/-- `Read` calls `Get` only when the resource ID parses and the state decodes. -/
theorem Read_get_called_decodes {σ : Type} (d : Deps) (client : Remote σ)
    (metadata : ResourceMetaData) (s0 : σ) (id : ManagedInstanceEncryptionProtectorId)
    (hid : d.ManagedInstanceEncryptionProtectorID metadata.ResourceDataId = .ok id)
    (hcalled : Call.protectorGet id.ResourceGroup id.ManagedInstanceName ∈
      (Read.Func d client metadata s0).calls) :
    ∃ state, metadata.Decode = .ok state := by
  cases hdec : metadata.Decode with
  | ok state => exact ⟨state, rfl⟩
  | error e =>
    simp only [Read, hid, hdec] at hcalled
    simp [Run.halt] at hcalled

/-- The mapping of `Read` where the URI is present: on a successful `Get`
response that carries a URI whenever its key type is `AzureKeyVault`, `Read`
encodes a model; under
`AzureKeyVault` its `key_vault_key_id` is the response's URI and its
`auto_rotation_enabled` the response's flag (`false` when absent); when the
properties are absent or the key type is anything else, they are `""` and
`false`, whatever URI and flag the response carries. -/
theorem Read_maps_protector_by_key_type {σ : Type} (d : Deps) (client : Remote σ)
    (metadata : ResourceMetaData) (s0 s1 : σ) (id : ManagedInstanceEncryptionProtectorId)
    (existing : ManagedInstanceEncryptionProtector)
    (hid : d.ManagedInstanceEncryptionProtectorID metadata.ResourceDataId = .ok id)
    (hcalled : Call.protectorGet id.ResourceGroup id.ManagedInstanceName ∈
      (Read.Func d client metadata s0).calls)
    (hget : client.protectorGet s0 id.ResourceGroup id.ManagedInstanceName = ((existing, none), s1))
    (huri : ∀ props, existing.ManagedInstanceEncryptionProtectorProperties = some props →
      props.ServerKeyType = ServerKeyTypeAzureKeyVault → props.URI ≠ none) :
    ∃ model, (Read.Func d client metadata s0).Encoded = some model ∧
      (∀ props, existing.ManagedInstanceEncryptionProtectorProperties = some props →
        props.ServerKeyType = ServerKeyTypeAzureKeyVault →
        some model.KeyVaultKeyId = props.URI ∧
        model.AutoRotationEnabled = props.AutoRotationEnabled.getD false) ∧
      ((existing.ManagedInstanceEncryptionProtectorProperties = none ∨
          ∃ props, existing.ManagedInstanceEncryptionProtectorProperties = some props ∧
            props.ServerKeyType ≠ ServerKeyTypeAzureKeyVault) →
        model.KeyVaultKeyId = "" ∧ model.AutoRotationEnabled = false) := by
  obtain ⟨state, hdec⟩ := Read_get_called_decodes d client metadata s0 id hid hcalled
  cases hp : existing.ManagedInstanceEncryptionProtectorProperties with
  | none =>
    simp only [Read, hid, hdec, hget, hp]
    exact ⟨_, rfl, by simp, by simp⟩
  | some props =>
    by_cases hk : props.ServerKeyType = ServerKeyTypeAzureKeyVault
    · cases hu : props.URI with
      | none => exact absurd hu (huri props hp hk)
      | some uri =>
        cases ha : props.AutoRotationEnabled with
        | none =>
          simp only [Read, hid, hdec, hget, hp, hk, hu, ha, if_true]
          refine ⟨_, rfl, ?_, ?_⟩
          · intro props2 h2 _
            cases Option.some.inj h2
            simp [hu, ha]
          · rintro (h | ⟨props2, h2, hne⟩)
            · cases h
            · cases Option.some.inj h2
              exact absurd hk hne
        | some b =>
          simp only [Read, hid, hdec, hget, hp, hk, hu, ha, if_true]
          refine ⟨_, rfl, ?_, ?_⟩
          · intro props2 h2 _
            cases Option.some.inj h2
            simp [hu, ha]
          · rintro (h | ⟨props2, h2, hne⟩)
            · cases h
            · cases Option.some.inj h2
              exact absurd hk hne
    · simp only [Read, hid, hdec, hget, hp, hk, if_false]
      refine ⟨_, rfl, ?_, ?_⟩
      · intro props2 h2 hk2
        cases Option.some.inj h2
        exact absurd hk2 hk
      · intro _
        exact ⟨rfl, rfl⟩

/-- The mapping of `Read` at a concrete input: a successful `AzureKeyVault`
response with a URI and no rotation flag. -/
theorem Read_maps_protector_by_key_type_witness :
    ∃ model,
      (Read.Func azureDeps (getAnswersRemote sampleKeyVaultResponse none)
        (hostWith sampleProtectorId ⟨"", "", false⟩) none).Encoded = some model ∧
      (∀ props, sampleKeyVaultResponse.ManagedInstanceEncryptionProtectorProperties = some props →
        props.ServerKeyType = ServerKeyTypeAzureKeyVault →
        some model.KeyVaultKeyId = props.URI ∧
        model.AutoRotationEnabled = props.AutoRotationEnabled.getD false) ∧
      ((sampleKeyVaultResponse.ManagedInstanceEncryptionProtectorProperties = none ∨
          ∃ props, sampleKeyVaultResponse.ManagedInstanceEncryptionProtectorProperties = some props ∧
            props.ServerKeyType ≠ ServerKeyTypeAzureKeyVault) →
        model.KeyVaultKeyId = "" ∧ model.AutoRotationEnabled = false) :=
  Read_maps_protector_by_key_type azureDeps (getAnswersRemote sampleKeyVaultResponse none)
    (hostWith sampleProtectorId ⟨"", "", false⟩) none none ⟨"sub", "rg", "mi", "current"⟩
    sampleKeyVaultResponse rfl (by decide) rfl
    (by
      intro props h _
      cases h
      decide)

/-- Whenever `Read` encodes a model after a successful `Get`, the model follows
the mapping by key type, with no assumption on the URI: the mapping fails only
where `Read` encodes nothing. -/
theorem Read_mapping_when_encoded {σ : Type} (d : Deps) (client : Remote σ)
    (metadata : ResourceMetaData) (s0 s1 : σ) (id : ManagedInstanceEncryptionProtectorId)
    (existing : ManagedInstanceEncryptionProtector)
    (model : MsSqlManagedInstanceTransparentDataEncryptionModel)
    (hid : d.ManagedInstanceEncryptionProtectorID metadata.ResourceDataId = .ok id)
    (hget : client.protectorGet s0 id.ResourceGroup id.ManagedInstanceName = ((existing, none), s1))
    (henc : (Read.Func d client metadata s0).Encoded = some model) :
    (∀ props, existing.ManagedInstanceEncryptionProtectorProperties = some props →
      props.ServerKeyType = ServerKeyTypeAzureKeyVault →
      some model.KeyVaultKeyId = props.URI ∧
      model.AutoRotationEnabled = props.AutoRotationEnabled.getD false) ∧
    ((existing.ManagedInstanceEncryptionProtectorProperties = none ∨
        ∃ props, existing.ManagedInstanceEncryptionProtectorProperties = some props ∧
          props.ServerKeyType ≠ ServerKeyTypeAzureKeyVault) →
      model.KeyVaultKeyId = "" ∧ model.AutoRotationEnabled = false) := by
  cases hdec : metadata.Decode with
  | error e =>
    simp only [Read, hid, hdec] at henc
    simp [Run.halt] at henc
  | ok state =>
    have hcalled : Call.protectorGet id.ResourceGroup id.ManagedInstanceName ∈
        (Read.Func d client metadata s0).calls := by
      simp only [Read, hid, hdec, hget]
      split <;> simp [Run.halt]
    have huri : ∀ props, existing.ManagedInstanceEncryptionProtectorProperties = some props →
        props.ServerKeyType = ServerKeyTypeAzureKeyVault → props.URI ≠ none := by
      intro props hp hk hu
      simp only [Read, hid, hdec, hget, hp, hk, hu, if_true] at henc
      simp [Run.halt] at henc
    obtain ⟨model2, h1, h2, h3⟩ :=
      Read_maps_protector_by_key_type d client metadata s0 s1 id existing hid hcalled hget huri
    have hm : model2 = model := Option.some.inj (h1.symm.trans henc)
    subst hm
    exact ⟨h2, h3⟩

/-- C6 fails on the code: on a successful `Get` response with key type
`AzureKeyVault` and no URI, `Read` calls `Get`, then panics on the nil
dereference of `props.URI` and encodes no model, where the claim has it encode
a model for every successful response. -/
theorem Read_panics_on_key_vault_response_without_uri :
    (getAnswersRemote sampleNoUriResponse none).protectorGet none "rg" "mi" =
      ((sampleNoUriResponse, none), none) ∧
    (Read.Func azureDeps (getAnswersRemote sampleNoUriResponse none)
      (hostWith sampleProtectorId ⟨"", "", false⟩) none).calls = [Call.protectorGet "rg" "mi"] ∧
    (Read.Func azureDeps (getAnswersRemote sampleNoUriResponse none)
      (hostWith sampleProtectorId ⟨"", "", false⟩) none).outcome = Outcome.panicked ∧
    (Read.Func azureDeps (getAnswersRemote sampleNoUriResponse none)
      (hostWith sampleProtectorId ⟨"", "", false⟩) none).Encoded = none :=
  ⟨rfl, by decide, by decide, by decide⟩

/-- C8: when the resource ID does not parse, `Read` returns that parse error and
makes no call; when it parses and `Get` is called and returns an error, then on
a 404 response `Read` marks the resource as gone, returns what `MarkAsGone`
returns and encodes no model, and on any other response it returns an error,
marks nothing as gone and encodes no model. -/
theorem Read_not_found_or_failure {σ : Type} (d : Deps) (client : Remote σ)
    (metadata : ResourceMetaData) (s0 : σ) :
    (∀ e, d.ManagedInstanceEncryptionProtectorID metadata.ResourceDataId = .error e →
      (Read.Func d client metadata s0).calls = [] ∧
      (Read.Func d client metadata s0).outcome = .returned (some (.passthrough e)) ∧
      (Read.Func d client metadata s0).MarkedGone = none ∧
      (Read.Func d client metadata s0).Encoded = none) ∧
    (∀ id existing err s1,
      d.ManagedInstanceEncryptionProtectorID metadata.ResourceDataId = .ok id →
      Call.protectorGet id.ResourceGroup id.ManagedInstanceName ∈ (Read.Func d client metadata s0).calls →
      client.protectorGet s0 id.ResourceGroup id.ManagedInstanceName = ((existing, some err), s1) →
      (ResponseWasNotFound existing.Response = true →
        (Read.Func d client metadata s0).MarkedGone = some id ∧
        (Read.Func d client metadata s0).outcome =
          .returned ((metadata.MarkAsGone id).map Error.passthrough) ∧
        (Read.Func d client metadata s0).Encoded = none) ∧
      (ResponseWasNotFound existing.Response = false →
        (∃ e, (Read.Func d client metadata s0).outcome = .returned (some e)) ∧
        (Read.Func d client metadata s0).MarkedGone = none ∧
        (Read.Func d client metadata s0).Encoded = none)) := by
  constructor
  · intro e he
    simp [Read, he, Run.halt]
  · intro id existing err s1 hid hcalled hget
    obtain ⟨state, hdec⟩ := Read_get_called_decodes d client metadata s0 id hid hcalled
    constructor
    · intro h404
      simp [Read, hid, hdec, hget, h404]
    · intro h404
      simp [Read, hid, hdec, hget, h404, Run.halt]

/-- C8 at three concrete inputs: a resource ID that does not parse, a `Get` that
fails with status 404, and a `Get` that fails with status 500. -/
theorem Read_not_found_or_failure_witness :
    ((Read.Func azureDeps (okRemote none) (hostWith "not-an-id" ⟨"", "", false⟩) none).calls = [] ∧
      (Read.Func azureDeps (okRemote none) (hostWith "not-an-id" ⟨"", "", false⟩) none).outcome =
        .returned (some (.passthrough "ID was not an encryption protector ID")) ∧
      (Read.Func azureDeps (okRemote none) (hostWith "not-an-id" ⟨"", "", false⟩) none).MarkedGone = none ∧
      (Read.Func azureDeps (okRemote none) (hostWith "not-an-id" ⟨"", "", false⟩) none).Encoded = none) ∧
    ((Read.Func azureDeps (getFailsRemote 404 none)
        (hostWith sampleProtectorId ⟨"", "", false⟩) none).MarkedGone = some ⟨"sub", "rg", "mi", "current"⟩ ∧
      (Read.Func azureDeps (getFailsRemote 404 none)
        (hostWith sampleProtectorId ⟨"", "", false⟩) none).outcome = .returned none ∧
      (Read.Func azureDeps (getFailsRemote 404 none)
        (hostWith sampleProtectorId ⟨"", "", false⟩) none).Encoded = none) ∧
    ((∃ e, (Read.Func azureDeps (getFailsRemote 500 none)
        (hostWith sampleProtectorId ⟨"", "", false⟩) none).outcome = .returned (some e)) ∧
      (Read.Func azureDeps (getFailsRemote 500 none)
        (hostWith sampleProtectorId ⟨"", "", false⟩) none).MarkedGone = none ∧
      (Read.Func azureDeps (getFailsRemote 500 none)
        (hostWith sampleProtectorId ⟨"", "", false⟩) none).Encoded = none) :=
  ⟨(Read_not_found_or_failure azureDeps (okRemote none) (hostWith "not-an-id" ⟨"", "", false⟩) none).1
      "ID was not an encryption protector ID" rfl,
    ((Read_not_found_or_failure azureDeps (getFailsRemote 404 none)
      (hostWith sampleProtectorId ⟨"", "", false⟩) none).2 ⟨"sub", "rg", "mi", "current"⟩
      ⟨some 404, none, none⟩ "Get failed" none rfl (by decide) rfl).1 rfl,
    ((Read_not_found_or_failure azureDeps (getFailsRemote 500 none)
      (hostWith sampleProtectorId ⟨"", "", false⟩) none).2 ⟨"sub", "rg", "mi", "current"⟩
      ⟨some 500, none, none⟩ "Get failed" none rfl (by decide) rfl).2 rfl⟩

/-- Once `Create` has called `Get`, it does not return an error, whatever `Get`
answered: it panics or returns `nil`. -/
theorem Create_outcome_after_get {σ : Type} (d : Deps) (client : Remote σ)
    (metadata : ResourceMetaData) (s0 : σ) (resourceGroup name : String)
    (hcalled : Call.protectorGet resourceGroup name ∈ (Create.Func d client metadata s0).calls) :
    (Create.Func d client metadata s0).outcome = .panicked ∨
    (Create.Func d client metadata s0).outcome = .returned none := by
  revert hcalled
  simp only [Create]
  cases metadata.Decode with
  | error e => simp [Run.halt]
  | ok model =>
    simp only []
    cases d.ManagedInstanceID model.ManagedInstanceId with
    | error e => simp [Run.halt]
    | ok managedInstanceId =>
      simp only []
      by_cases hne : TrimSpace model.KeyVaultKeyId = ""
      · simp only [hne, ne_eq, not_true_eq_false, if_false]
        generalize client.protectorCreateOrUpdate _ _ _ _ = r3
        obtain ⟨_ | e3, s3⟩ := r3
        · simp only []
          generalize client.protectorWaitForCompletionRef _ = r4
          obtain ⟨_ | e4, s4⟩ := r4
          · simp only []
            split <;> simp [Run.halt]
          · simp [Run.halt]
        · simp [Run.halt]
      · simp only [hne, ne_eq, not_false_eq_true, if_true]
        cases d.ParseNestedItemID (TrimSpace model.KeyVaultKeyId) with
        | error e => simp [Run.halt]
        | ok keyId =>
          simp only []
          by_cases hk : keyId.NestedItemType = "keys"
          · simp only [hk, if_true]
            cases d.ParseRequestURI keyId.KeyVaultBaseUrl with
            | error e => simp [Run.halt]
            | ok idURL =>
              obtain ⟨t, ht⟩ := Split_dot_head idURL.Host
              simp only [ht]
              generalize client.keysCreateOrUpdate _ _ _ _ _ = r1
              obtain ⟨_ | e1, s1⟩ := r1
              · simp only []
                generalize client.keysWaitForCompletionRef _ = r2
                obtain ⟨_ | e2, s2⟩ := r2
                · simp only []
                  generalize client.protectorCreateOrUpdate _ _ _ _ = r3
                  obtain ⟨_ | e3, s3⟩ := r3
                  · simp only []
                    generalize client.protectorWaitForCompletionRef _ = r4
                    obtain ⟨_ | e4, s4⟩ := r4
                    · simp only []
                      split <;> simp [Run.halt]
                    · simp [Run.halt]
                  · simp [Run.halt]
                · simp [Run.halt]
              · simp [Run.halt]
          · simp [hk, Run.halt]

/-- When `Create` stops before calling `Get`, it returns an error and does not
set the resource ID: every failure before the final `Get` is propagated. -/
theorem Create_error_before_get {σ : Type} (d : Deps) (client : Remote σ)
    (metadata : ResourceMetaData) (s0 : σ)
    (hcalled : ∀ resourceGroup name,
      Call.protectorGet resourceGroup name ∉ (Create.Func d client metadata s0).calls) :
    (∃ e, (Create.Func d client metadata s0).outcome = .returned (some e)) ∧
    (Create.Func d client metadata s0).SetID = none := by
  revert hcalled
  simp only [Create]
  cases metadata.Decode with
  | error e => simp [Run.halt]
  | ok model =>
    simp only []
    cases d.ManagedInstanceID model.ManagedInstanceId with
    | error e => simp [Run.halt]
    | ok managedInstanceId =>
      simp only []
      by_cases hne : TrimSpace model.KeyVaultKeyId = ""
      · simp only [hne, ne_eq, not_true_eq_false, if_false]
        generalize client.protectorCreateOrUpdate _ _ _ _ = r3
        obtain ⟨_ | e3, s3⟩ := r3
        · simp only []
          generalize client.protectorWaitForCompletionRef _ = r4
          obtain ⟨_ | e4, s4⟩ := r4
          · simp only []
            split <;> simp [Run.halt]
          · simp [Run.halt]
        · simp [Run.halt]
      · simp only [hne, ne_eq, not_false_eq_true, if_true]
        cases d.ParseNestedItemID (TrimSpace model.KeyVaultKeyId) with
        | error e => simp [Run.halt]
        | ok keyId =>
          simp only []
          by_cases hk : keyId.NestedItemType = "keys"
          · simp only [hk, if_true]
            cases d.ParseRequestURI keyId.KeyVaultBaseUrl with
            | error e => simp [Run.halt]
            | ok idURL =>
              obtain ⟨t, ht⟩ := Split_dot_head idURL.Host
              simp only [ht]
              generalize client.keysCreateOrUpdate _ _ _ _ _ = r1
              obtain ⟨_ | e1, s1⟩ := r1
              · simp only []
                generalize client.keysWaitForCompletionRef _ = r2
                obtain ⟨_ | e2, s2⟩ := r2
                · simp only []
                  generalize client.protectorCreateOrUpdate _ _ _ _ = r3
                  obtain ⟨_ | e3, s3⟩ := r3
                  · simp only []
                    generalize client.protectorWaitForCompletionRef _ = r4
                    obtain ⟨_ | e4, s4⟩ := r4
                    · simp only []
                      split <;> simp [Run.halt]
                    · simp [Run.halt]
                  · simp [Run.halt]
                · simp [Run.halt]
              · simp [Run.halt]
          · simp [hk, Run.halt]

/-- C2 fails on the code at the final `Get`: on a remote service whose `Get`
always fails, `Create` still calls `Get` last and then returns no error.  When
the failed response carries no ID, `Create` panics on the nil dereference of
`resp.ID`; when it carries one, `Create` sets the resource ID and returns `nil`. -/
theorem Create_get_error_not_propagated :
    (∀ s resourceGroup name answerID,
      ((getFailsRemote 500 answerID).protectorGet s resourceGroup name).1.2 = some "Get failed") ∧
    (Create.Func azureDeps (getFailsRemote 500 none)
      (hostWith "" ⟨sampleManagedInstanceId, "", false⟩) none).calls =
      [Call.protectorCreateOrUpdate "rg" "mi"
          ⟨none, some ⟨some "", ServerKeyTypeServiceManaged, none, some false⟩, none⟩,
        Call.protectorWaitForCompletionRef, Call.protectorGet "rg" "mi"] ∧
    (Create.Func azureDeps (getFailsRemote 500 none)
      (hostWith "" ⟨sampleManagedInstanceId, "", false⟩) none).outcome = Outcome.panicked ∧
    (Create.Func azureDeps (getFailsRemote 500 (some sampleProtectorId))
      (hostWith "" ⟨sampleManagedInstanceId, "", false⟩) none).outcome = Outcome.returned none ∧
    (Create.Func azureDeps (getFailsRemote 500 (some sampleProtectorId))
      (hostWith "" ⟨sampleManagedInstanceId, "", false⟩) none).SetID =
      some ⟨"sub", "rg", "mi", "current"⟩ :=
  ⟨fun _ _ _ _ => rfl, by decide, by decide, by decide, by decide⟩

/-- Whatever the resource ID, the `managed_instance_id` that `Read` encodes is
the `ID()` of the encryption protector ID it parsed. -/
theorem Read_encodes_protector_id {σ : Type} (d : Deps) (client : Remote σ)
    (metadata : ResourceMetaData) (s0 : σ) (id : ManagedInstanceEncryptionProtectorId)
    (model : MsSqlManagedInstanceTransparentDataEncryptionModel)
    (hid : d.ManagedInstanceEncryptionProtectorID metadata.ResourceDataId = .ok id)
    (henc : (Read.Func d client metadata s0).Encoded = some model) :
    model.ManagedInstanceId = d.ProtectorIDString id := by
  revert henc
  simp only [Read, hid]
  repeat' split
  all_goals simp [Run.halt]
  all_goals
    rintro rfl
    rfl

/-- C7 fails on the code: `Create` on the sample managed instance ID sets the
resource ID to the encryption protector ID built from its parts and `current`,
and `Read` run on that resource ID, with `Get` succeeding, encodes as
`managed_instance_id` the encryption protector ID, which is not the managed
instance ID that was configured. -/
theorem Create_then_Read_managed_instance_id :
    (Create.Func azureDeps (okRemote (some sampleProtectorId))
      (hostWith "" ⟨sampleManagedInstanceId, "", false⟩) none).SetID =
      some ⟨"sub", "rg", "mi", "current"⟩ ∧
    (Read.Func azureDeps (okRemote (some sampleProtectorId))
      (hostWith (azureDeps.ProtectorIDString ⟨"sub", "rg", "mi", "current"⟩)
        ⟨sampleManagedInstanceId, "", false⟩)
      (Create.Func azureDeps (okRemote (some sampleProtectorId))
        (hostWith "" ⟨sampleManagedInstanceId, "", false⟩) none).remote).Encoded =
      some ⟨sampleProtectorId, "", false⟩ ∧
    sampleProtectorId ≠ sampleManagedInstanceId :=
  ⟨by decide, by decide, by decide⟩

/-- C9: `Update` runs exactly as `Create` does on every input and every remote
service (same calls, same outcome, same resource ID), and both declare a
timeout of 24 hours. -/
theorem Update_same_as_Create :
    (∀ (σ : Type) (d : Deps) (client : Remote σ) (metadata : ResourceMetaData) (s0 : σ),
      Update.Func d client metadata s0 = Create.Func d client metadata s0) ∧
    Update.Timeout = 86400000000000 ∧ Create.Timeout = 86400000000000 :=
  ⟨fun _ _ _ _ _ => rfl, rfl, rfl⟩

end MsSql
